import Mathlib

/-!
Shallow embedding of the `discord-twitter-webhooks` pipeline.

`src/main.py` contains the tweet-processing pipeline: text extraction
(`get_text`), media collection (`get_media_links_and_remove_url`), t.co link
resolution (`replace_tco_url_link_with_real_link`), entity linking
(`twitter_regex`), embed composition (`send_embed_webhook`), the driver
(`main`) and the stream listener (`MyStreamListener.on_status`).
`src/discord_twitter_webhooks/main.py` contains the configuration web
interface (`add_post`).

Strings are modelled as `List Char` wrapped in `String`; Python's
`str.replace` and `re.sub` are modelled by fuel-based structural recursions
(the fuel is the length of the scanned list, which is always sufficient,
so the fuel case for a non-empty list is never reached) so that all
definitions evaluate inside the kernel.
-/

/-! ### Generic string machinery -/

/-- Boolean prefix test on character lists. -/
def isPrefixOfB : List Char → List Char → Bool
  | [], _ => true
  | _ :: _, [] => false
  | a :: as, b :: bs => a == b && isPrefixOfB as bs

/-- Python's `sub in s`: does `sub` occur (contiguously) in `l`? -/
def containsSub (sub : List Char) : List Char → Bool
  | [] => isPrefixOfB sub []
  | c :: rest => isPrefixOfB sub (c :: rest) || containsSub sub rest

/-- Helper for Python's `s.replace("", new)`: `new` is inserted after every
character. -/
def sprinkle (new : List Char) : List Char → List Char
  | [] => []
  | c :: rest => (c :: new) ++ sprinkle new rest

/-- Scanner for Python's `str.replace(old, new)` with `old ≠ ""`: leftmost
non-overlapping occurrences of `old` are replaced by `new`. -/
def pyReplaceGo (old new : List Char) : Nat → List Char → List Char
  | _, [] => []
  | 0, l => l
  | fuel + 1, c :: rest =>
    if isPrefixOfB old (c :: rest) then new ++ pyReplaceGo old new fuel (rest.drop (old.length - 1))
    else c :: pyReplaceGo old new fuel rest

/-- Python's `l.replace(old, new)`. -/
def pyReplace (l old new : List Char) : List Char :=
  if old.isEmpty then new ++ sprinkle new l
  else pyReplaceGo old new l.length l

/-- Python's `s.replace(old, new)` on `String`. -/
def pyReplaceS (s old new : String) : String :=
  ⟨pyReplace s.data old.data new.data⟩

/-- Number of leftmost non-overlapping occurrences of `tok` (the occurrences
`str.replace` removes). -/
def countOccGo (tok : List Char) : Nat → List Char → Nat
  | _, [] => 0
  | 0, _ => 0
  | fuel + 1, c :: rest =>
    if isPrefixOfB tok (c :: rest) then 1 + countOccGo tok fuel (rest.drop (tok.length - 1))
    else countOccGo tok fuel rest

/-- Occurrence count of a non-empty token, `re.sub`/`str.replace` style. -/
def countOcc (tok l : List Char) : Nat :=
  if tok.isEmpty then 0 else countOccGo tok l.length l

/-- `re.sub`-style scanner.  At each position the matcher `m` is offered the
remaining text; on `some (len, rep)` the next `len` characters are replaced
by `rep` (which is not rescanned) and scanning resumes after the match,
otherwise one character is emitted. -/
def reSubGo (m : List Char → Option (Nat × List Char)) : Nat → List Char → List Char
  | _, [] => []
  | 0, l => l
  | fuel + 1, c :: rest =>
    match m (c :: rest) with
    | some (len, rep) => rep ++ reSubGo m fuel (rest.drop (len - 1))
    | none => c :: reSubGo m fuel rest

/-- One full `re.sub` pass of matcher `m` over `l`. -/
def reSub (m : List Char → Option (Nat × List Char)) (l : List Char) : List Char :=
  reSubGo m l.length l

/-! ### Data model

A tweepy status object, restricted to the attributes `src/main.py` reads.
`Option` models an absent attribute (tweepy raises `AttributeError`, which
the source catches) or, for `ExtendedTweet.extended_entities`, an absent
dictionary key (a caught `KeyError`).  Attributes that are always present on
the provider's payload when their parent exists (`full_text`,
`entities.urls` inside `extended_tweet`, the `media` list inside an
`extended_entities` value) are modelled as plain fields. -/

/-- One entry of a `media` list: the inline placeholder `url` token and the
direct `media_url_https` image link. -/
structure MediaEntity where
  url : String
  media_url_https : String
deriving DecidableEq

/-- One entry of an `entities.urls` list: the t.co token and its expansion. -/
structure UrlEntity where
  url : String
  expanded_url : String
deriving DecidableEq

/-- The `extended_tweet` dictionary of a long-form tweet. -/
structure ExtendedTweet where
  full_text : String
  extended_entities : Option (List MediaEntity)
  entities_urls : List UrlEntity
deriving DecidableEq

/-- The tweet author. -/
structure TwitterUser where
  screen_name : String
  profile_image_url_https : String
deriving DecidableEq

/-- A tweepy status object. -/
structure Tweet where
  id : Nat
  text : String
  extended_tweet : Option ExtendedTweet
  extended_entities : Option (List MediaEntity)
  entities_urls : Option (List UrlEntity)
  user : TwitterUser
  retweeted : Bool
  in_reply_to_screen_name : Option String
deriving DecidableEq

/-! ### The pipeline (`src/main.py`) -/

/-- `get_text` (src/main.py:26): prefer the extended full text, fall back to
the short text on `AttributeError`. -/
def get_text (t : Tweet) : String :=
  match t.extended_tweet with
  | some ext => ext.full_text
  | none => t.text

/-- The `for image in media` loop of `get_media_links_and_remove_url`:
append `media_url_https` to the link list and delete every occurrence of the
placeholder `url` from the text. -/
def mediaLoop : List MediaEntity → String → List String × String
  | [], text => ([], text)
  | e :: rest, text =>
    let r := mediaLoop rest (pyReplaceS text e.url (""))
    (e.media_url_https :: r.1, r.2)

/-- `get_media_links_and_remove_url` (src/main.py:37).  Long-form tweets use
`extended_tweet["extended_entities"]["media"]` (a missing key is a caught
`KeyError`); short tweets fall back to `tweet.extended_entities` (a missing
attribute is a caught `AttributeError`). -/
def get_media_links_and_remove_url (t : Tweet) (text : String) : List String × String :=
  match t.extended_tweet with
  | some ext =>
    match ext.extended_entities with
    | some media => mediaLoop media text
    | none => ([], text)
  | none =>
    match t.extended_entities with
    | some media => mediaLoop media text
    | none => ([], text)

/-- `get_avatar_url` (src/main.py:63). -/
def get_avatar_url (t : Tweet) : String :=
  pyReplaceS t.user.profile_image_url_https ("_normal.jpg") (".jpg")

/-- The `for url in urls` loop of `replace_tco_url_link_with_real_link`. -/
def urlLoop : List UrlEntity → String → String
  | [], text => text
  | u :: rest, text => urlLoop rest (pyReplaceS text u.url u.expanded_url)

/-- `replace_tco_url_link_with_real_link` (src/main.py:69): long-form tweets
use `extended_tweet["entities"]["urls"]`; short tweets fall back to
`tweet.entities["urls"]`, and a tweet without the attribute is left
unchanged. -/
def replace_tco_url_link_with_real_link (t : Tweet) (text : String) : String :=
  match t.extended_tweet with
  | some ext => urlLoop ext.entities_urls text
  | none =>
    match t.entities_urls with
    | some urls => urlLoop urls text
    | none => text

/-! ### `twitter_regex` (src/main.py:93)

The five `re.sub` rules are compiled, in dictionary order, into matchers
for the generic scanner above:
1. `@(\w*)` → `[\g<0>](https://twitter.com/\g<1>)`
2. `#(\w*)` → `[\g<0>](https://twitter.com/hashtag/\g<1>)`
3. `(https://\S*)\)` → `<\g<1>>)`
4. `.*?(/r/)([^\s^\/]*)(/|)` → `[/r/\g<2>](https://reddit.com/r/\g<2>)`
5. `.*?(/u/|/user/)([^\s^\/]*)(/|)` → `[/u/\g<2>](https://reddit.com/u/\g<2>)`
The lazy `.*?` of rules 4-5 matches any run of non-newline characters before
the literal token, and the whole match (prefix included) is replaced. -/

/-- Python's `\w` (ASCII range; the tweets under test are ASCII). -/
def isWordChar (c : Char) : Bool := c.isAlphanum || c == '_'

/-- Matcher for rule 1, `@(\w*)`. -/
def m1 (l : List Char) : Option (Nat × List Char) :=
  match l with
  | [] => none
  | c :: rest =>
    if c = '@' then
      some (1 + (rest.takeWhile isWordChar).length,
        '[' :: '@' :: (rest.takeWhile isWordChar ++
          (("](https://twitter.com/").data ++ (rest.takeWhile isWordChar ++ [')']))))
    else none

/-- Matcher for rule 2, `#(\w*)`. -/
def m2 (l : List Char) : Option (Nat × List Char) :=
  match l with
  | [] => none
  | c :: rest =>
    if c = '#' then
      some (1 + (rest.takeWhile isWordChar).length,
        '[' :: '#' :: (rest.takeWhile isWordChar ++
          (("](https://twitter.com/hashtag/").data ++ (rest.takeWhile isWordChar ++ [')']))))
    else none

/-- The greedy `\S*` of rule 3 backtracks to the last `)` of the non-space
run; this returns the run up to (excluding) that last `)`. -/
def beforeLastParen (run : List Char) : Option (List Char) :=
  match run.reverse.dropWhile (fun c => !(c == ')')) with
  | [] => none
  | c :: restRev => if c = ')' then some restRev.reverse else none

/-- Matcher for rule 3, `(https://\S*)\)`. -/
def m3 (l : List Char) : Option (Nat × List Char) :=
  if isPrefixOfB (("https://").data) l then
    match beforeLastParen ((l.drop 8).takeWhile (fun c => !c.isWhitespace)) with
    | some g1tail =>
      some (8 + g1tail.length + 1, '<' :: (("https://").data ++ (g1tail ++ (">)").data)))
    | none => none
  else none

/-- The character class `[^\s^\/]` of rules 4-5. -/
def redditNameChar (c : Char) : Bool := !c.isWhitespace && !(c == '^') && !(c == '/')

/-- Lazy scan of rule 4: consume non-newline characters until `/r/` matches;
the accumulator `k` is the length of the consumed prefix, which is part of
the match and hence deleted by the replacement. -/
def m4go : List Char → Nat → Option (Nat × List Char)
  | [], _ => none
  | c :: rest, k =>
    if isPrefixOfB (("/r/").data) (c :: rest) then
      some (k + 3 + ((c :: rest).drop 3 |>.takeWhile redditNameChar).length +
          (if (((c :: rest).drop (3 + ((c :: rest).drop 3 |>.takeWhile redditNameChar).length)).head? = some '/' : Bool) then 1 else 0),
        ("[/r/").data ++ (((c :: rest).drop 3 |>.takeWhile redditNameChar) ++
          (("](https://reddit.com/r/").data ++ (((c :: rest).drop 3 |>.takeWhile redditNameChar) ++ [')']))))
    else if c = '\n' then none
    else m4go rest (k + 1)

/-- Matcher for rule 4, `.*?(/r/)([^\s^\/]*)(/|)`. -/
def m4 (l : List Char) : Option (Nat × List Char) := m4go l 0

/-- Token match of rule 5 at the current position (`tokLen` is 3 for `/u/`,
6 for `/user/`); both alternatives produce a `[/u/…]` replacement. -/
def mkU (l : List Char) (k tokLen : Nat) : Option (Nat × List Char) :=
  some (k + tokLen + ((l.drop tokLen).takeWhile redditNameChar).length +
      (if ((l.drop (tokLen + ((l.drop tokLen).takeWhile redditNameChar).length)).head? = some '/' : Bool) then 1 else 0),
    ("[/u/").data ++ (((l.drop tokLen).takeWhile redditNameChar) ++
      (("](https://reddit.com/u/").data ++ (((l.drop tokLen).takeWhile redditNameChar) ++ [')']))))

/-- Lazy scan of rule 5, trying the alternation `/u/` before `/user/`. -/
def m5go : List Char → Nat → Option (Nat × List Char)
  | [], _ => none
  | c :: rest, k =>
    if isPrefixOfB (("/u/").data) (c :: rest) then mkU (c :: rest) k 3
    else if isPrefixOfB (("/user/").data) (c :: rest) then mkU (c :: rest) k 6
    else if c = '\n' then none
    else m5go rest (k + 1)

/-- Matcher for rule 5, `.*?(/u/|/user/)([^\s^\/]*)(/|)`. -/
def m5 (l : List Char) : Option (Nat × List Char) := m5go l 0

/-- `twitter_regex` (src/main.py:93): the five substitutions applied in
dictionary order. -/
def twitter_regex (s : String) : String :=
  ⟨reSub m5 (reSub m4 (reSub m3 (reSub m2 (reSub m1 s.data))))⟩

/-- Model of the standard library collaborator `html.unescape`
(src/main.py:168) restricted to the five basic named entities; a total
single-pass scan. -/
def mHtml (l : List Char) : Option (Nat × List Char) :=
  if isPrefixOfB (("&amp;").data) l then some (5, ['&'])
  else if isPrefixOfB (("&lt;").data) l then some (4, ['<'])
  else if isPrefixOfB (("&gt;").data) l then some (4, ['>'])
  else if isPrefixOfB (("&quot;").data) l then some (6, ['"'])
  else if isPrefixOfB (("&#39;").data) l then some (5, ['\x27'])
  else none

/-- `html.unescape` as used by `main` (src/main.py:168). -/
def html_unescape (s : String) : String :=
  ⟨reSub mHtml s.data⟩

/-! ### Embed composition (`send_embed_webhook`, src/main.py:120) -/

/-- Outcome of the `requests.get` call to the collage maker: an HTTP
response (with the parsed `url` field of its JSON body, `none` when the body
is not JSON or has no `url` key), or a raised network error / timeout. -/
inductive CollageOutcome where
  | response (status : Nat) (jsonUrl : Option String)
  | netError
  | timeout
deriving DecidableEq

/-- The embed payload handed to `hook.send`. -/
structure EmbedPayload where
  description : String
  color : Nat
  timestamp : String
  image : Option String
  authorName : String
  authorIcon : String
  authorUrl : String
deriving DecidableEq

/-- `send_embed_webhook` (src/main.py:120).  `svc` is the collage-maker
collaborator, queried with `tweet_id = t.id`; `Except.error ()` models an
exception escaping the function (a raised network error or timeout, or a
200 response whose body yields no `url`).  Only a non-200 response status
falls back to the first image of the list. -/
def send_embed_webhook (avatar : String) (t : Tweet) (link_list : Option (List String))
    (text : String) (svc : Nat → CollageOutcome) : Except Unit EmbedPayload :=
  let image : Except Unit (Option String) :=
    match link_list with
    | none => Except.ok none
    | some [] => Except.ok none
    | some [x] => Except.ok (some x)
    | some (first :: _ :: _) =>
      match svc t.id with
      | CollageOutcome.response status jsonUrl =>
        if status = 200 then
          match jsonUrl with
          | some u => Except.ok (some u)
          | none => Except.error ()
        else Except.ok (some first)
      | CollageOutcome.netError => Except.error ()
      | CollageOutcome.timeout => Except.error ()
  match image with
  | Except.error e => Except.error e
  | Except.ok img =>
    Except.ok
      { description := text
        color := 0x1E0F3
        timestamp := "now"
        image := img
        authorName := t.user.screen_name
        authorIcon := avatar
        authorUrl := "https://twitter.com/i/web/status/" ++ toString t.id }

/-- `main` (src/main.py:162): the full pipeline for one tweet. -/
def mainPipeline (t : Tweet) (svc : Nat → CollageOutcome) : Except Unit EmbedPayload :=
  let text := get_text t
  let media := get_media_links_and_remove_url t text
  let avatar := get_avatar_url t
  let unescaped := html_unescape media.2
  let text_url_links := replace_tco_url_link_with_real_link t unescaped
  send_embed_webhook avatar t (some media.1) (twitter_regex text_url_links) svc

/-- `MyStreamListener.on_status` (src/main.py:176): `none` models an early
`return` (no webhook call); `some r` models running `main`. -/
def on_status (t : Tweet) (svc : Nat → CollageOutcome) : Option (Except Unit EmbedPayload) :=
  if t.retweeted || containsSub (("RT @").data) t.text.data then none
  else if t.in_reply_to_screen_name.isSome then none
  else some (mainPipeline t svc)

/-! ### Tracking-Parameter Stripper -/

/-- Python's `s.split(sep)` for a single-character separator: never returns
an empty list, and `"".split(sep) = [""]`. -/
def splitOnChar (sep : Char) : List Char → List (List Char)
  | [] => [[]]
  | c :: rest =>
    if c = sep then [] :: splitOnChar sep rest
    else
      match splitOnChar sep rest with
      | [] => [[c]]
      | g :: gs => (c :: g) :: gs

/-- `sep.join(groups)`. -/
def joinChar (sep : Char) : List (List Char) → List Char
  | [] => []
  | [g] => g
  | g :: g2 :: gs => g ++ sep :: joinChar sep (g2 :: gs)

/-- Split a list at the first occurrence of `sep`; `none` when `sep` does
not occur. -/
def splitAtFirst (sep : Char) : List Char → Option (List Char × List Char)
  | [] => none
  | c :: rest =>
    if c = sep then some ([], rest)
    else
      match splitAtFirst sep rest with
      | none => none
      | some (pre, q) => some (c :: pre, q)

/-- A query parameter survives the stripper iff its name does not start with
the `utm_` family marker. -/
def keepParam (p : List Char) : Bool := !isPrefixOfB (("utm_").data) p

/-- Modelled from the spec: the Tracking-Parameter Stripper of section 4.3
(the function `remove_utm_source`, imported by
`src/tests/test_discord_twitter_webhooks.py` but absent from the provided
sources).  The URL is split at the first `?`; query parameters (separated by
`&`) whose name starts with `utm_` are removed; if no parameter survives the
`?` is dropped entirely; a URL without `?` passes through unchanged. -/
def remove_utm_chars (l : List Char) : List Char :=
  match splitAtFirst '?' l with
  | none => l
  | some (pre, query) =>
    match (splitOnChar '&' query).filter keepParam with
    | [] => pre
    | k :: ks => pre ++ '?' :: joinChar '&' (k :: ks)

/-- Modelled from the spec: `remove_utm_source` on `String`. -/
def remove_utm_source (s : String) : String :=
  ⟨remove_utm_chars s.data⟩

/-- Does the character list carry no `utm_` query parameter? -/
def noUtmQueryL (l : List Char) : Bool :=
  match splitAtFirst '?' l with
  | none => true
  | some (_, q) => (splitOnChar '&' q).all keepParam

/-- Does the URL carry no `utm_` query parameter (so the stripper should be
the identity on it)? -/
def noUtmQuery (s : String) : Bool :=
  noUtmQueryL s.data

/-! ### Configuration interface (`add_post`, src/discord_twitter_webhooks/main.py:89) -/

/-- A value stored in a `reader` tag: a string, a boolean, or Python's
`None`. -/
inductive TagVal where
  | vs (v : String)
  | vb (v : Bool)
  | vnone
deriving DecidableEq

/-- Python's `str()` of a tag value. -/
def pyStrTag : TagVal → String
  | TagVal.vs v => v
  | TagVal.vb true => "True"
  | TagVal.vb false => "False"
  | TagVal.vnone => "None"

/-- Python's `f"{b}"` for a bool. -/
def pyBool : Bool → String
  | true => "True"
  | false => "False"

/-- An RSS feed registered in the reader store, with its `name` tag
(`none` models the tag not being set, on which `reader.get_tag` raises). -/
structure FeedRec where
  url : String
  nameTag : Option TagVal
deriving DecidableEq

/-- The reader store: registered feeds and the global tags. -/
structure ReaderState where
  feeds : List FeedRec
  globalTags : List (String × TagVal)
deriving DecidableEq

/-- The `/add` POST form. -/
structure AddForm where
  name : Option String
  url : Option String
  usernames : Option String
  include_retweets : Bool
  include_replies : Bool
deriving DecidableEq

/-- Python's f-string rendering of an `Option String` (`None` for absent). -/
def fmtOptStr : Option String → String
  | some s => s
  | none => "None"

/-- The tag value `reader.set_tag` stores for the form's `name`. -/
def nameTagVal : Option String → TagVal
  | some n => TagVal.vs n
  | none => TagVal.vnone

/-- `reader.set_tag((), key, value)`: overwrite the global tag or append it. -/
def setGlobalTag (tags : List (String × TagVal)) (k : String) (v : TagVal) :
    List (String × TagVal) :=
  if tags.any (fun t => t.1 = k) then tags.map (fun t => if t.1 = k then (k, v) else t)
  else tags ++ [(k, v)]

/-- `reader.set_tag(feed, "name", v)` for the feed with the given URL. -/
def setFeedNameTag (feeds : List FeedRec) (url : String) (v : TagVal) : List FeedRec :=
  feeds.map (fun f => if f.url = url then { f with nameTag := some v } else f)

/-- `reader.add_feed(url, exist_ok=True)`. -/
def add_feed (feeds : List FeedRec) (url : String) : List FeedRec :=
  if feeds.any (fun f => f.url = url) then feeds else feeds ++ [{ url := url, nameTag := none }]

/-- `reader.get_feeds()` lookup of the first feed with the given URL. -/
def findFeed (feeds : List FeedRec) (url : String) : Option FeedRec :=
  feeds.find? (fun f => f.url = url)

/-- The three `reader.set_tag((), f"{name}_…", …)` calls of `add_post`. -/
def setThreeGlobals (tags : List (String × TagVal)) (nameS webhook : String)
    (inc_rt inc_rp : Bool) : List (String × TagVal) :=
  setGlobalTag
    (setGlobalTag (setGlobalTag tags (nameS ++ "_webhook") (TagVal.vs webhook))
      (nameS ++ "_include_retweets") (TagVal.vb inc_rt))
    (nameS ++ "_include_replies") (TagVal.vb inc_rp)

/-- The `for username in usernames_value.split(" ")` loop of `add_post`
(src/discord_twitter_webhooks/main.py:129).  A username whose nitter feed
already exists appends the new name to the feed's `name` tag, sets the three
global tags and returns early (`reader.get_tag` raising on a feed without a
`name` tag is `Except.error ()`); otherwise the feed is added and tagged and
the loop continues. -/
def usernameLoop (nameOpt : Option String) (webhook usernamesValue : String)
    (inc_rt inc_rp : Bool) : List String → ReaderState → Except Unit (String × ReaderState)
  | [], st =>
    Except.ok ("Added new group \x27" ++ fmtOptStr nameOpt ++ "\x27 with usernames \x27" ++
      usernamesValue ++ "\x27.\n\nWebhook: \x27" ++ webhook ++ "\x27\nInclude retweets: \x27" ++
      pyBool inc_rt ++ "\x27\nInclude replies: \x27" ++ pyBool inc_rp ++ "\x27", st)
  | username :: rest, st =>
    let feed_url := "https://nitter.lovinator.space/" ++ username ++ "/rss"
    match findFeed st.feeds feed_url with
    | some feed =>
      match feed.nameTag with
      | none => Except.error ()
      | some tv =>
        let old_name := pyStrTag tv
        let new_name := old_name ++ ";" ++ fmtOptStr nameOpt
        Except.ok ("Added \x27" ++ fmtOptStr nameOpt ++ "\x27 to the existing feed for \x27" ++
            username ++ "\x27. Before it was \x27" ++ old_name ++ "\x27. Now it is \x27" ++
            new_name ++ "\x27.",
          { feeds := setFeedNameTag st.feeds feed_url (TagVal.vs new_name)
            globalTags := setThreeGlobals st.globalTags (fmtOptStr nameOpt) webhook inc_rt inc_rp })
    | none =>
      usernameLoop nameOpt webhook usernamesValue inc_rt inc_rp rest
        { feeds := setFeedNameTag (add_feed st.feeds feed_url) feed_url (nameTagVal nameOpt)
          globalTags := setThreeGlobals st.globalTags (fmtOptStr nameOpt) webhook inc_rt inc_rp }

/-- Does the form's name contain the reserved `;` delimiter
(`name is not None and ";" in name`)? -/
def nameHasSemicolon : Option String → Bool
  | some n => containsSub ((";").data) n.data
  | none => false

/-- Is some global tag already registered under this name
(`global_tag[0].startswith(f"{name}_")`)? -/
def duplicateName (name : Option String) (st : ReaderState) : Bool :=
  st.globalTags.any (fun t => isPrefixOfB ((fmtOptStr name ++ "_").data) t.1.data)

/-- `add_post` (src/discord_twitter_webhooks/main.py:89): the three
validation checks in source order, then the username loop.  The result is
the response string paired with the store state after the request. -/
def add_post (form : AddForm) (st : ReaderState) : Except Unit (String × ReaderState) :=
  if nameHasSemicolon form.name then
    Except.ok ("Error, name cannot contain a semicolon.\n\nPlease go back and try again.\nName: \x27" ++
      fmtOptStr form.name ++ "\x27\nWebhook: \x27" ++ fmtOptStr form.url ++
      "\x27\nUsernames: \x27" ++ fmtOptStr form.usernames ++ "\x27", st)
  else
    match form.url, form.usernames with
    | none, u =>
      Except.ok ("Error: webhook or usernames was None. Please go back and try again.\n\nWebhook: \x27" ++
        fmtOptStr none ++ "\x27\nUsernames: \x27" ++ fmtOptStr u ++ "\x27", st)
    | some w, none =>
      Except.ok ("Error: webhook or usernames was None. Please go back and try again.\n\nWebhook: \x27" ++
        fmtOptStr (some w) ++ "\x27\nUsernames: \x27" ++ fmtOptStr none ++ "\x27", st)
    | some w, some us =>
      if duplicateName form.name st then
        Except.ok ("Error, name already exists.\n\nPlease go back and try again.\nName: \x27" ++
          fmtOptStr form.name ++ "\x27\nWebhook: \x27" ++ fmtOptStr (some w) ++
          "\x27\nUsernames: \x27" ++ fmtOptStr (some us) ++ "\x27", st)
      else
        usernameLoop form.name w us form.include_retweets form.include_replies
          ((splitOnChar ' ' us.data).map (fun g => (⟨g⟩ : String))) st

/-! ### Selected entity sets (the extended/short fallback, made explicit) -/

/-- The media-entity list `get_media_links_and_remove_url` iterates over. -/
def selectedMedia (t : Tweet) : List MediaEntity :=
  match t.extended_tweet with
  | some ext => ext.extended_entities.getD []
  | none => t.extended_entities.getD []

/-- The url-entity list `replace_tco_url_link_with_real_link` iterates
over. -/
def selectedUrls (t : Tweet) : List UrlEntity :=
  match t.extended_tweet with
  | some ext => ext.entities_urls
  | none => t.entities_urls.getD []

/-- Does the collage collaborator reply with an HTTP response whose body
yields a `url` on success (the condition under which `send_embed_webhook`
cannot raise)? -/
def respondsB : CollageOutcome → Bool
  | CollageOutcome.response status jsonUrl => if status = 200 then jsonUrl.isSome else true
  | CollageOutcome.netError => false
  | CollageOutcome.timeout => false

/-- Is the pipeline result a delivered embed (no escaped exception)? -/
def exceptOk : Except Unit EmbedPayload → Bool
  | Except.ok _ => true
  | Except.error _ => false

set_option maxRecDepth 16384

/-! ### Concrete fixtures used by witnesses and counterexamples -/

/-- A short tweet with two media entities sharing one placeholder token, as
in the provider's payloads for multi-image tweets. -/
def twoImageTweet : Tweet :=
  { id := 42
    text := "Two imgs https://t.co/x"
    extended_tweet := none
    extended_entities := some
      [{ url := "https://t.co/x", media_url_https := "https://pbs.twimg.com/media/1.jpg" },
       { url := "https://t.co/x", media_url_https := "https://pbs.twimg.com/media/2.jpg" }]
    entities_urls := none
    user := { screen_name := "Bot2Lovi", profile_image_url_https := "https://a_normal.jpg" }
    retweeted := false
    in_reply_to_screen_name := none }

/-- A short tweet with two distinct media entities whose second token, when
deleted, is irrelevant; used for the composer-level counterexample. -/
def plainTweet : Tweet :=
  { id := 7
    text := "hi"
    extended_tweet := none
    extended_entities := none
    entities_urls := none
    user := { screen_name := "u", profile_image_url_https := "p" }
    retweeted := false
    in_reply_to_screen_name := none }

/-- A bare short tweet: no extended variant, no media, entity list present
but empty. -/
def bareTweet : Tweet :=
  { id := 5
    text := "Hello I am short Sadge"
    extended_tweet := none
    extended_entities := none
    entities_urls := some []
    user := { screen_name := "Bot2Lovi", profile_image_url_https := "https://a_normal.jpg" }
    retweeted := false
    in_reply_to_screen_name := none }

/-- A well-formed configuration request. -/
def okForm : AddForm :=
  { name := some ("TheLovinator")
    url := some ("https://discord.com/api/webhooks/1/x")
    usernames := some ("Bot2Lovi")
    include_retweets := false
    include_replies := true }

/-- A store already holding the global tags of the name `TheLovinator`. -/
def takenState : ReaderState :=
  { feeds := [{ url := "https://nitter.lovinator.space/Bot2Lovi/rss"
                nameTag := some (TagVal.vs ("TheLovinator")) }]
    globalTags := [("TheLovinator_webhook", TagVal.vs ("https://discord.com/api/webhooks/1/x")),
                   ("TheLovinator_include_retweets", TagVal.vb false),
                   ("TheLovinator_include_replies", TagVal.vb true)] }

/-! ### Lemmas about the composer and the media collector -/

/-- If the collage collaborator replies with a usable HTTP response, the
composer never raises, whatever the link list. -/
theorem send_embed_ok (avatar text : String) (t : Tweet) (ll : List String)
    (svc : Nat → CollageOutcome) (h : respondsB (svc t.id) = true) :
    exceptOk (send_embed_webhook avatar t (some ll) text svc) = true := by
  match ll with
  | [] => rfl
  | [x] => rfl
  | first :: y :: rest =>
    cases hs : svc t.id with
    | response status jsonUrl =>
      rw [hs] at h
      by_cases h200 : status = 200
      · rw [respondsB] at h
        simp only [h200, if_true] at h
        obtain ⟨u, hu⟩ := Option.isSome_iff_exists.mp h
        simp [send_embed_webhook, hs, h200, hu, exceptOk]
      · simp [send_embed_webhook, hs, h200, exceptOk]
    | netError => rw [hs] at h; exact absurd h (by simp [respondsB])
    | timeout => rw [hs] at h; exact absurd h (by simp [respondsB])

/-- The media loop returns exactly the declared media links, in order, and
the text with each token's occurrences deleted in declaration order. -/
theorem mediaLoop_spec (ms : List MediaEntity) (text : String) :
    mediaLoop ms text
      = (ms.map (fun e => e.media_url_https),
         ms.foldl (fun tx e => pyReplaceS tx e.url ("")) text) := by
  induction ms generalizing text with
  | nil => rfl
  | cons e rest ih => simp [mediaLoop, ih, List.foldl]

/-! ### Claim C1 -/

/-- Claim C1, counterexample: with two media URLs and a collage call that
raises a network error, `send_embed_webhook` raises instead of falling back
to the first URL — the claim's "on any failure of that call (non-success
HTTP status, network error, or timeout), sets the image field to the first
URL" is false for raised errors. -/
theorem c1_network_error_aborts :
    send_embed_webhook ("https://avatar.jpg") plainTweet
        (some ["https://img/1.jpg", "https://img/2.jpg"]) ("text")
        (fun _ => CollageOutcome.netError)
      = Except.error () := rfl

/-- Claim C1 (amended): with an empty media-URL list the embed has no image
field; with exactly one URL the image field is that URL; with two or more
URLs the composer consults the collage collaborator keyed by the tweet id,
and when the call returns an HTTP response with a non-success status the
image field falls back to the first URL of the list.  (A raised network
error or timeout is not caught and aborts the post; see the
counterexample.) -/
theorem c1_image_selection (avatar text : String) (t : Tweet) (svc : Nat → CollageOutcome) :
    (send_embed_webhook avatar t (some []) text svc).map EmbedPayload.image = Except.ok none
      ∧ (∀ x, (send_embed_webhook avatar t (some [x]) text svc).map EmbedPayload.image
          = Except.ok (some x))
      ∧ (∀ x y rest status jsonUrl, status ≠ 200 →
          svc t.id = CollageOutcome.response status jsonUrl →
          (send_embed_webhook avatar t (some (x :: y :: rest)) text svc).map EmbedPayload.image
            = Except.ok (some x)) := by
  refine ⟨rfl, fun x => rfl, fun x y rest status jsonUrl h200 hs => ?_⟩
  simp [send_embed_webhook, hs, h200, Except.map]

/-- Witness for C1 at concrete inputs, with a 404 collage response for the
multi-image conjunct. -/
theorem c1_image_selection_witness :
    (send_embed_webhook ("a") plainTweet (some []) ("t")
        (fun _ => CollageOutcome.response 404 none)).map EmbedPayload.image = Except.ok none
      ∧ (send_embed_webhook ("a") plainTweet (some ["https://i/1.jpg"]) ("t")
          (fun _ => CollageOutcome.response 404 none)).map EmbedPayload.image
        = Except.ok (some ("https://i/1.jpg"))
      ∧ (send_embed_webhook ("a") plainTweet (some ["https://i/1.jpg", "https://i/2.jpg"]) ("t")
          (fun _ => CollageOutcome.response 404 none)).map EmbedPayload.image
        = Except.ok (some ("https://i/1.jpg"))  :=
  ⟨(c1_image_selection ("a") ("t") plainTweet (fun _ => CollageOutcome.response 404 none)).1,
   (c1_image_selection ("a") ("t") plainTweet (fun _ => CollageOutcome.response 404 none)).2.1
     ("https://i/1.jpg"),
   (c1_image_selection ("a") ("t") plainTweet (fun _ => CollageOutcome.response 404 none)).2.2
     ("https://i/1.jpg") ("https://i/2.jpg") [] 404 none (by decide) rfl⟩

/-! ### Claim C2 -/

/-- Claim C2, counterexample: a structurally valid two-image tweet whose
collage call raises a network error makes the whole pipeline raise, so "for
every structurally valid Post the full pipeline raises no exception" is
false. -/
theorem c2_network_error_escapes :
    exceptOk (mainPipeline twoImageTweet (fun _ => CollageOutcome.netError)) = false := by decide

/-- Claim C2 (amended): for every structurally valid Post the pipeline
raises no exception provided the collage call — consulted only for posts
with two or more media URLs — returns an HTTP response whose body yields a
`url` on status 200; in particular every branch for posts lacking the
extended text variant, media, or link entities is total. -/
theorem c2_pipeline_no_exception (t : Tweet) (svc : Nat → CollageOutcome)
    (h : respondsB (svc t.id) = true) :
    exceptOk (mainPipeline t svc) = true := by
  unfold mainPipeline
  exact send_embed_ok _ _ _ _ _ h

/-- Witness for C2: the concrete two-image tweet processed against a
well-behaved collage collaborator. -/
theorem c2_pipeline_no_exception_witness :
    respondsB ((fun _ => CollageOutcome.response 200 (some ("https://c/collage.png")))
        twoImageTweet.id) = true
      ∧ exceptOk (mainPipeline twoImageTweet
          (fun _ => CollageOutcome.response 200 (some ("https://c/collage.png")))) = true :=
  ⟨rfl, c2_pipeline_no_exception twoImageTweet
    (fun _ => CollageOutcome.response 200 (some ("https://c/collage.png"))) rfl⟩

/-! ### Claim C3 -/

/-- Claim C3 (code_bug): on the documented four-token input, `twitter_regex`
does not preserve the surrounding text and earlier rewrites: the `.*?`
prefix of the `/r/`-rule's match swallows everything before `/r/aww` (the
rewritten mention, hashtag and `/u/test` included) and the replacement
drops it, leaving only the subreddit link. -/
theorem c3_regex_deletes_preceding_text :
    twitter_regex ("Hello @TheLovinator1 #Hello /u/test /r/aww")
      = "[/r/aww](https://reddit.com/r/aww)" := by decide

/-! ### Claim C4 -/

/-- Claim C4, counterexample: a post declaring two media entities that share
one placeholder token returns two URLs while exactly one token occurrence is
removed from the text, so "the number of returned media URLs equals the
number of placeholder-token occurrences removed" is false. -/
theorem c4_url_count_vs_occurrences :
    get_media_links_and_remove_url twoImageTweet ("Two imgs https://t.co/x")
        = (["https://pbs.twimg.com/media/1.jpg", "https://pbs.twimg.com/media/2.jpg"], "Two imgs ")
      ∧ countOcc (("https://t.co/x").data) (("Two imgs https://t.co/x").data)
          - countOcc (("https://t.co/x").data) (("Two imgs ").data) = 1 := by decide

/-- Claim C4 (amended): the Media Collector returns the declared media URLs
in original attachment order — so the number of returned URLs equals the
number of declared attachments, not the number of token occurrences removed
— and the returned text is the input text with every occurrence of each
declared placeholder token deleted, token by token in declaration order. -/
theorem c4_media_collector_shape (t : Tweet) (text : String) :
    get_media_links_and_remove_url t text
        = ((selectedMedia t).map (fun e => e.media_url_https),
           (selectedMedia t).foldl (fun tx e => pyReplaceS tx e.url ("")) text)
      ∧ (get_media_links_and_remove_url t text).1.length = (selectedMedia t).length := by
  have h : get_media_links_and_remove_url t text
      = ((selectedMedia t).map (fun e => e.media_url_https),
         (selectedMedia t).foldl (fun tx e => pyReplaceS tx e.url ("")) text) := by
    cases ht : t.extended_tweet with
    | some ext =>
      cases he : ext.extended_entities with
      | some ms =>
        simp [get_media_links_and_remove_url, selectedMedia, ht, he, mediaLoop_spec]
      | none => simp [get_media_links_and_remove_url, selectedMedia, ht, he]
    | none =>
      cases he : t.extended_entities with
      | some ms =>
        simp [get_media_links_and_remove_url, selectedMedia, ht, he, mediaLoop_spec]
      | none => simp [get_media_links_and_remove_url, selectedMedia, ht, he]
  exact ⟨h, by rw [h]; simp⟩

/-! ### Claim C5 -/

/-- Claim C5 (confirmed): a post with no media attachments and no link
entities passes the text through the Media Collector (with an empty URL
list) and the Link Resolver unchanged. -/
theorem c5_no_media_no_links_passthrough (t : Tweet) (text : String)
    (hm : selectedMedia t = []) (hu : selectedUrls t = []) :
    get_media_links_and_remove_url t text = ([], text)
      ∧ replace_tco_url_link_with_real_link t text = text := by
  constructor
  · cases ht : t.extended_tweet with
    | some ext =>
      simp only [selectedMedia, ht] at hm
      cases he : ext.extended_entities with
      | some ms =>
        rw [he] at hm; simp at hm
        simp [get_media_links_and_remove_url, ht, he, hm, mediaLoop]
      | none => simp [get_media_links_and_remove_url, ht, he]
    | none =>
      simp only [selectedMedia, ht] at hm
      cases he : t.extended_entities with
      | some ms =>
        rw [he] at hm; simp at hm
        simp [get_media_links_and_remove_url, ht, he, hm, mediaLoop]
      | none => simp [get_media_links_and_remove_url, ht, he]
  · cases ht : t.extended_tweet with
    | some ext =>
      simp only [selectedUrls, ht] at hu
      simp [replace_tco_url_link_with_real_link, ht, hu, urlLoop]
    | none =>
      simp only [selectedUrls, ht] at hu
      cases he : t.entities_urls with
      | some urls =>
        rw [he] at hu; simp at hu
        simp [replace_tco_url_link_with_real_link, ht, he, hu, urlLoop]
      | none => simp [replace_tco_url_link_with_real_link, ht, he]

/-- Witness for C5 on the bare short tweet. -/
theorem c5_no_media_no_links_passthrough_witness :
    get_media_links_and_remove_url bareTweet ("Hello I am short Sadge")
        = ([], "Hello I am short Sadge")
      ∧ replace_tco_url_link_with_real_link bareTweet ("Hello I am short Sadge")
        = "Hello I am short Sadge" :=
  c5_no_media_no_links_passthrough bareTweet ("Hello I am short Sadge") rfl rfl

/-! ### Claim C6 -/

/-- Claim C6 (confirmed): a post flagged as a retweet, or with a non-null
reply target, is skipped by `on_status`: no `main` call and hence no webhook
delivery, and no error. -/
theorem c6_retweet_or_reply_skipped (t : Tweet) (svc : Nat → CollageOutcome)
    (h : t.retweeted = true ∨ t.in_reply_to_screen_name.isSome = true) :
    on_status t svc = none := by
  rcases h with h | h
  · simp [on_status, h]
  · by_cases hA : (t.retweeted || containsSub (("RT @").data) t.text.data) = true
    · simp [on_status, hA]
    · simp [on_status, hA, h]

/-- Witness for C6: a retweet-flagged tweet and a reply are both skipped. -/
theorem c6_retweet_or_reply_skipped_witness :
    on_status { plainTweet with retweeted := true } (fun _ => CollageOutcome.netError) = none
      ∧ on_status { plainTweet with in_reply_to_screen_name := some ("x") }
          (fun _ => CollageOutcome.netError) = none :=
  ⟨c6_retweet_or_reply_skipped _ _ (Or.inl rfl),
   c6_retweet_or_reply_skipped _ _ (Or.inr rfl)⟩

/-! ### Claim C10 -/

/-- Claim C10 (confirmed): a post whose body text contains the literal
substring "RT @" is dropped by `on_status` even when its retweet flag is
false. -/
theorem c10_rt_text_skipped (t : Tweet) (svc : Nat → CollageOutcome)
    (hr : t.retweeted = false) (h : containsSub (("RT @").data) t.text.data = true) :
    on_status t svc = none := by
  simp [on_status, hr, h]

/-- Witness for C10: an original (non-retweet) post quoting "RT @" is
skipped. -/
theorem c10_rt_text_skipped_witness :
    on_status { plainTweet with text := "He said RT @Bot2Lovi: hi" }
        (fun _ => CollageOutcome.netError) = none :=
  c10_rt_text_skipped _ _ rfl (by decide)

/-! ### Lemmas on splitting and joining (for the Tracking-Parameter
Stripper) -/

theorem splitAtFirst_eq_some {sep : Char} : ∀ {l pre q : List Char},
    splitAtFirst sep l = some (pre, q) → l = pre ++ sep :: q ∧ sep ∉ pre := by
  intro l
  induction l with
  | nil => intro pre q h; simp [splitAtFirst] at h
  | cons c rest ih =>
    intro pre q h
    by_cases hc : c = sep
    · simp only [splitAtFirst, hc, if_true, Option.some.injEq, Prod.mk.injEq] at h
      obtain ⟨h1, h2⟩ := h
      subst h1; subst h2; subst hc
      exact ⟨rfl, by simp⟩
    · simp only [splitAtFirst, hc, if_false] at h
      cases hrec : splitAtFirst sep rest with
      | none => rw [hrec] at h; simp at h
      | some pq =>
        obtain ⟨p, q0⟩ := pq
        rw [hrec] at h
        simp only [Option.some.injEq, Prod.mk.injEq] at h
        obtain ⟨h1, h2⟩ := h
        obtain ⟨hr1, hr2⟩ := ih hrec
        subst h1; subst h2
        refine ⟨by rw [hr1]; rfl, ?_⟩
        intro hm
        rcases List.mem_cons.mp hm with h3 | h3
        · exact hc h3.symm
        · exact hr2 h3

theorem splitAtFirst_append {sep : Char} : ∀ (pre q : List Char), sep ∉ pre →
    splitAtFirst sep (pre ++ sep :: q) = some (pre, q) := by
  intro pre
  induction pre with
  | nil => intro q _; simp [splitAtFirst]
  | cons c p ih =>
    intro q h
    have hc : ¬ c = sep := by intro hcc; exact h (by simp [hcc])
    simp [splitAtFirst, hc, ih q (fun hm => h (List.mem_cons_of_mem c hm))]

theorem splitAtFirst_of_not_mem {sep : Char} : ∀ {l : List Char}, sep ∉ l →
    splitAtFirst sep l = none := by
  intro l
  induction l with
  | nil => intro _; rfl
  | cons c rest ih =>
    intro h
    have hc : ¬ c = sep := fun hcc => h (by simp [hcc])
    simp [splitAtFirst, hc, ih (fun hm => h (List.mem_cons_of_mem c hm))]

theorem splitOnChar_ne_nil (sep : Char) : ∀ l, splitOnChar sep l ≠ [] := by
  intro l
  induction l with
  | nil => simp [splitOnChar]
  | cons c rest ih =>
    by_cases hc : c = sep
    · simp [splitOnChar, hc]
    · cases hr : splitOnChar sep rest with
      | nil => exact absurd hr ih
      | cons g gs => simp [splitOnChar, hc, hr]

theorem joinChar_cons (sep : Char) (g : List Char) {r : List (List Char)} (h : r ≠ []) :
    joinChar sep (g :: r) = g ++ sep :: joinChar sep r := by
  cases r with
  | nil => exact absurd rfl h
  | cons g2 gs => rfl

theorem joinChar_splitOnChar (sep : Char) : ∀ l, joinChar sep (splitOnChar sep l) = l := by
  intro l
  induction l with
  | nil => rfl
  | cons c rest ih =>
    by_cases hc : c = sep
    · subst hc
      have hsplit : splitOnChar c (c :: rest) = [] :: splitOnChar c rest := by
        simp [splitOnChar]
      rw [hsplit, joinChar_cons c [] (splitOnChar_ne_nil c rest), ih]
      rfl
    · cases hr : splitOnChar sep rest with
      | nil => exact absurd hr (splitOnChar_ne_nil sep rest)
      | cons g gs =>
        have hsplit : splitOnChar sep (c :: rest) = (c :: g) :: gs := by
          simp [splitOnChar, hc, hr]
        rw [hsplit]
        rw [hr] at ih
        cases gs with
        | nil =>
          have : joinChar sep [g] = g := rfl
          rw [this] at ih
          show c :: g = c :: rest
          rw [ih]
        | cons g2 gs' =>
          rw [joinChar_cons sep (c :: g) (by simp)]
          rw [joinChar_cons sep g (by simp)] at ih
          show (c :: g) ++ sep :: joinChar sep (g2 :: gs') = c :: rest
          rw [← ih]
          rfl

theorem mem_splitOnChar_not_mem (sep : Char) : ∀ l g, g ∈ splitOnChar sep l → sep ∉ g := by
  intro l
  induction l with
  | nil =>
    intro g hg
    simp [splitOnChar] at hg
    subst hg; simp
  | cons c rest ih =>
    intro g hg
    by_cases hc : c = sep
    · simp only [splitOnChar, hc, if_true] at hg
      rcases List.mem_cons.mp hg with h | h
      · subst h; simp
      · exact ih g h
    · cases hr : splitOnChar sep rest with
      | nil => exact absurd hr (splitOnChar_ne_nil sep rest)
      | cons g0 gs =>
        have hsplit : splitOnChar sep (c :: rest) = (c :: g0) :: gs := by
          simp [splitOnChar, hc, hr]
        rw [hsplit] at hg
        rcases List.mem_cons.mp hg with h | h
        · subst h
          intro hm
          rcases List.mem_cons.mp hm with h2 | h2
          · exact hc h2.symm
          · exact ih g0 (by rw [hr]; exact List.mem_cons_self g0 gs) h2
        · exact ih g (by rw [hr]; exact List.mem_cons_of_mem g0 h)

theorem splitOnChar_of_not_mem (sep : Char) : ∀ {g : List Char}, sep ∉ g →
    splitOnChar sep g = [g] := by
  intro g
  induction g with
  | nil => intro _; rfl
  | cons c p ih =>
    intro h
    have hc : ¬ c = sep := fun hcc => h (by simp [hcc])
    simp [splitOnChar, hc, ih (fun hm => h (List.mem_cons_of_mem c hm))]

theorem splitOnChar_append (sep : Char) : ∀ (g t : List Char), sep ∉ g →
    splitOnChar sep (g ++ sep :: t) = g :: splitOnChar sep t := by
  intro g
  induction g with
  | nil => intro t _; simp [splitOnChar]
  | cons c p ih =>
    intro t h
    have hc : ¬ c = sep := by intro hcc; exact h (by simp [hcc])
    have hrec := ih t (fun hm => h (List.mem_cons_of_mem c hm))
    simp [splitOnChar, hc, hrec]

theorem splitOnChar_joinChar (sep : Char) : ∀ (gs : List (List Char)), gs ≠ [] →
    (∀ g ∈ gs, sep ∉ g) → splitOnChar sep (joinChar sep gs) = gs := by
  intro gs
  induction gs with
  | nil => intro h; exact absurd rfl h
  | cons g rest ih =>
    intro _ hall
    cases rest with
    | nil => exact splitOnChar_of_not_mem sep (hall g (List.mem_cons_self g []))
    | cons g2 gs' =>
      rw [joinChar_cons sep g (by simp)]
      rw [splitOnChar_append sep g _ (hall g (List.mem_cons_self g (g2 :: gs')))]
      rw [ih (by simp) (fun x hx => hall x (List.mem_cons_of_mem g hx))]

theorem filter_idem {α : Type} (p : α → Bool) : ∀ l : List α,
    (l.filter p).filter p = l.filter p := by
  intro l
  induction l with
  | nil => rfl
  | cons a rest ih =>
    by_cases ha : p a = true
    · simp [List.filter, ha, ih]
    · simp only [Bool.not_eq_true] at ha
      simp [List.filter, ha, ih]

theorem filter_eq_self_of_all {α : Type} (p : α → Bool) : ∀ l : List α,
    (∀ a ∈ l, p a = true) → l.filter p = l := by
  intro l
  induction l with
  | nil => intro _; rfl
  | cons a rest ih =>
    intro h
    simp [List.filter, h a (List.mem_cons_self a rest),
      ih (fun x hx => h x (List.mem_cons_of_mem a hx))]

/-! ### Claim C7 -/

theorem remove_utm_chars_idem (l : List Char) :
    remove_utm_chars (remove_utm_chars l) = remove_utm_chars l := by
  cases hs : splitAtFirst '?' l with
  | none =>
    have h0 : remove_utm_chars l = l := by simp [remove_utm_chars, hs]
    rw [h0, h0]
  | some pq =>
    obtain ⟨pre, query⟩ := pq
    obtain ⟨hl, hpre⟩ := splitAtFirst_eq_some hs
    cases hk : (splitOnChar '&' query).filter keepParam with
    | nil =>
      have h1 : remove_utm_chars l = pre := by simp [remove_utm_chars, hs, hk]
      rw [h1]
      simp [remove_utm_chars, splitAtFirst_of_not_mem hpre]
    | cons k ks =>
      have h1 : remove_utm_chars l = pre ++ '?' :: joinChar '&' (k :: ks) := by
        simp [remove_utm_chars, hs, hk]
      rw [h1]
      have hmem : ∀ g ∈ k :: ks, '&' ∉ g := by
        intro g hg
        have hg2 : g ∈ (splitOnChar '&' query).filter keepParam := by rw [hk]; exact hg
        exact mem_splitOnChar_not_mem '&' query g (List.mem_of_mem_filter hg2)
      have hsplit : splitOnChar '&' (joinChar '&' (k :: ks)) = k :: ks :=
        splitOnChar_joinChar '&' (k :: ks) (by simp) hmem
      have hfilter : (k :: ks).filter keepParam = k :: ks := by
        rw [← hk]; exact filter_idem keepParam (splitOnChar '&' query)
      simp [remove_utm_chars, splitAtFirst_append pre (joinChar '&' (k :: ks)) hpre,
        hsplit, hfilter]

theorem remove_utm_chars_of_noUtm (l : List Char) (h : noUtmQueryL l = true) :
    remove_utm_chars l = l := by
  cases hs : splitAtFirst '?' l with
  | none => simp [remove_utm_chars, hs]
  | some pq =>
    obtain ⟨pre, query⟩ := pq
    obtain ⟨hl, _⟩ := splitAtFirst_eq_some hs
    rw [noUtmQueryL, hs] at h
    simp only [List.all_eq_true] at h
    have hfilter : (splitOnChar '&' query).filter keepParam = splitOnChar '&' query :=
      filter_eq_self_of_all keepParam (splitOnChar '&' query) h
    cases hq : splitOnChar '&' query with
    | nil => exact absurd hq (splitOnChar_ne_nil '&' query)
    | cons k ks =>
      rw [hq] at hfilter
      simp only [remove_utm_chars, hs, hq, hfilter]
      rw [← hq, joinChar_splitOnChar '&' query]
      exact hl.symm

/-- Claim C7 (confirmed, modelled from the spec): the Tracking-Parameter
Stripper is idempotent — `strip(strip(u)) = strip(u)` for every URL string —
and a URL whose query carries no `utm_` parameter passes through
unchanged. -/
theorem c7_remove_utm_source_idempotent (u : String) :
    remove_utm_source (remove_utm_source u) = remove_utm_source u
      ∧ (noUtmQuery u = true → remove_utm_source u = u) := by
  constructor
  · show (⟨remove_utm_chars (remove_utm_chars u.data)⟩ : String) = ⟨remove_utm_chars u.data⟩
    rw [remove_utm_chars_idem]
  · intro h
    show (⟨remove_utm_chars u.data⟩ : String) = u
    rw [remove_utm_chars_of_noUtm u.data h]

/-- Witness for C7: the stripper is stable on an already-stripped store URL
and leaves a utm-free URL unchanged; the test vector of
`test_remove_utm_source` also evaluates as recorded there. -/
theorem c7_remove_utm_source_idempotent_witness :
    remove_utm_source (remove_utm_source
        ("https://store.steampowered.com/app/457140/Oxygen_Not_Included/?utm_source=Steam&utm_campaign=Sale&utm_medium=Twitter"))
      = remove_utm_source
        ("https://store.steampowered.com/app/457140/Oxygen_Not_Included/?utm_source=Steam&utm_campaign=Sale&utm_medium=Twitter")
      ∧ remove_utm_source ("https://lovinator.space/?x=1&y=2") = "https://lovinator.space/?x=1&y=2" :=
  ⟨(c7_remove_utm_source_idempotent
      ("https://store.steampowered.com/app/457140/Oxygen_Not_Included/?utm_source=Steam&utm_campaign=Sale&utm_medium=Twitter")).1,
   (c7_remove_utm_source_idempotent ("https://lovinator.space/?x=1&y=2")).2 (by decide)⟩

/-! ### Lemmas on substring absence (for the Entity Linker) -/

theorem containsSub_tail {sub : List Char} {c : Char} {rest : List Char}
    (h : containsSub sub (c :: rest) = false) : containsSub sub rest = false := by
  rw [containsSub] at h
  exact (Bool.or_eq_false_iff.mp h).2

theorem not_prefix_of_not_contains {sub l : List Char} (h : containsSub sub l = false) :
    isPrefixOfB sub l = false := by
  cases l with
  | nil => rw [containsSub] at h; exact h
  | cons c rest => rw [containsSub] at h; exact (Bool.or_eq_false_iff.mp h).1

/-- If the matcher never fires on a text (under an invariant preserved by
taking the tail), one `re.sub` pass is the identity. -/
theorem reSubGo_id (m : List Char → Option (Nat × List Char)) (p : List Char → Prop)
    (hp : ∀ c rest, p (c :: rest) → p rest)
    (hm : ∀ l, p l → m l = none) :
    ∀ fuel l, p l → reSubGo m fuel l = l := by
  intro fuel
  induction fuel with
  | zero => intro l _; cases l <;> rfl
  | succ n ih =>
    intro l h
    cases l with
    | nil => rfl
    | cons c rest =>
      simp only [reSubGo, hm (c :: rest) h]
      rw [ih rest (hp c rest h)]

theorem reSub_id (m : List Char → Option (Nat × List Char)) (p : List Char → Prop)
    (hp : ∀ c rest, p (c :: rest) → p rest)
    (hm : ∀ l, p l → m l = none) (l : List Char) (h : p l) : reSub m l = l :=
  reSubGo_id m p hp hm l.length l h

theorem m1_none {l : List Char} (h : containsSub (("@").data) l = false) : m1 l = none := by
  cases l with
  | nil => rfl
  | cons c rest =>
    have hpre := not_prefix_of_not_contains h
    have hc : ¬ c = '@' := by
      intro hcc
      subst hcc
      rw [show (("@").data) = ['@'] from rfl] at hpre
      simp [isPrefixOfB] at hpre
    simp [m1, hc]

theorem m2_none {l : List Char} (h : containsSub (("#").data) l = false) : m2 l = none := by
  cases l with
  | nil => rfl
  | cons c rest =>
    have hpre := not_prefix_of_not_contains h
    have hc : ¬ c = '#' := by
      intro hcc
      subst hcc
      rw [show (("#").data) = ['#'] from rfl] at hpre
      simp [isPrefixOfB] at hpre
    simp [m2, hc]

theorem m3_none {l : List Char} (h : containsSub (("https://").data) l = false) :
    m3 l = none := by
  simp [m3, not_prefix_of_not_contains h]

theorem m4go_none : ∀ (l : List Char), containsSub (("/r/").data) l = false →
    ∀ k, m4go l k = none := by
  intro l
  induction l with
  | nil => intro _ k; rfl
  | cons c rest ih =>
    intro h k
    have hpre : isPrefixOfB ['/', 'r', '/'] (c :: rest) = false :=
      not_prefix_of_not_contains h
    by_cases hc : c = '\n'
    · subst hc; simp [m4go, hpre]
    · simp [m4go, hpre, hc, ih (containsSub_tail h) (k + 1)]

theorem m4_none {l : List Char} (h : containsSub (("/r/").data) l = false) : m4 l = none :=
  m4go_none l h 0

theorem m5go_none : ∀ (l : List Char), containsSub (("/u/").data) l = false →
    containsSub (("/user/").data) l = false → ∀ k, m5go l k = none := by
  intro l
  induction l with
  | nil => intro _ _ k; rfl
  | cons c rest ih =>
    intro hu huser k
    have hpreu : isPrefixOfB ['/', 'u', '/'] (c :: rest) = false :=
      not_prefix_of_not_contains hu
    have hpreuser : isPrefixOfB ['/', 'u', 's', 'e', 'r', '/'] (c :: rest) = false :=
      not_prefix_of_not_contains huser
    by_cases hc : c = '\n'
    · subst hc; simp [m5go, hpreu, hpreuser]
    · simp [m5go, hpreu, hpreuser, hc,
        ih (containsSub_tail hu) (containsSub_tail huser) (k + 1)]

theorem m5_none {l : List Char} (hu : containsSub (("/u/").data) l = false)
    (huser : containsSub (("/user/").data) l = false) : m5 l = none :=
  m5go_none l hu huser 0

/-! ### Claim C8 -/

/-- Claim C8, counterexample: a text containing none of `@`, `#`, `/r/`,
`/u/`, `/user/` is still rewritten — the URL-preview-suppression rule
`(https://\S*)\)` fires on a bare parenthesised link — so the entity-linking
step is not a no-op on such texts. -/
theorem c8_url_rule_not_noop :
    containsSub (("@").data) (("(https://a.b)").data) = false
      ∧ containsSub (("#").data) (("(https://a.b)").data) = false
      ∧ containsSub (("/r/").data) (("(https://a.b)").data) = false
      ∧ containsSub (("/u/").data) (("(https://a.b)").data) = false
      ∧ containsSub (("/user/").data) (("(https://a.b)").data) = false
      ∧ twitter_regex ("(https://a.b)") = "(<https://a.b>)" := by decide

/-- Claim C8 (amended): the entity-linking step is a no-op on every text
containing none of `@`, `#`, `/r/`, `/u/`, `/user/` and additionally no
`https://` (the trigger of the URL-preview-suppression rule). -/
theorem c8_linker_noop (s : String)
    (h1 : containsSub (("@").data) s.data = false)
    (h2 : containsSub (("#").data) s.data = false)
    (h3 : containsSub (("https://").data) s.data = false)
    (h4 : containsSub (("/r/").data) s.data = false)
    (h5 : containsSub (("/u/").data) s.data = false)
    (h6 : containsSub (("/user/").data) s.data = false) :
    twitter_regex s = s := by
  have e1 : reSub m1 s.data = s.data :=
    reSub_id m1 (fun l => containsSub (("@").data) l = false)
      (fun _ _ h => containsSub_tail h) (fun _ h => m1_none h) s.data h1
  have e2 : reSub m2 s.data = s.data :=
    reSub_id m2 (fun l => containsSub (("#").data) l = false)
      (fun _ _ h => containsSub_tail h) (fun _ h => m2_none h) s.data h2
  have e3 : reSub m3 s.data = s.data :=
    reSub_id m3 (fun l => containsSub (("https://").data) l = false)
      (fun _ _ h => containsSub_tail h) (fun _ h => m3_none h) s.data h3
  have e4 : reSub m4 s.data = s.data :=
    reSub_id m4 (fun l => containsSub (("/r/").data) l = false)
      (fun _ _ h => containsSub_tail h) (fun _ h => m4_none h) s.data h4
  have e5 : reSub m5 s.data = s.data :=
    reSub_id m5
      (fun l => containsSub (("/u/").data) l = false ∧ containsSub (("/user/").data) l = false)
      (fun _ _ h => ⟨containsSub_tail h.1, containsSub_tail h.2⟩)
      (fun _ h => m5_none h.1 h.2) s.data ⟨h5, h6⟩
  show (⟨reSub m5 (reSub m4 (reSub m3 (reSub m2 (reSub m1 s.data))))⟩ : String) = s
  rw [e1, e2, e3, e4, e5]

/-- Witness for C8 on a trigger-free text. -/
theorem c8_linker_noop_witness : twitter_regex ("hello world") = "hello world" :=
  c8_linker_noop ("hello world") (by decide) (by decide) (by decide) (by decide)
    (by decide) (by decide)

/-! ### Claim C9 -/

theorem isPrefixOfB_append {p : List Char} : ∀ {a : List Char} (b : List Char),
    isPrefixOfB p a = true → isPrefixOfB p (a ++ b) = true := by
  induction p with
  | nil => intro a b _; rfl
  | cons x xs ih =>
    intro a b h
    cases a with
    | nil => simp [isPrefixOfB] at h
    | cons y ys =>
      rw [isPrefixOfB] at h
      rw [List.cons_append, isPrefixOfB]
      rcases Bool.and_eq_true_iff.mp h with ⟨h1, h2⟩
      exact Bool.and_eq_true_iff.mpr ⟨h1, ih b h2⟩

theorem string_data_append (a b : String) : (a ++ b).data = a.data ++ b.data := rfl

/-- Claim C9 (confirmed): a malformed add request — a name containing the
reserved `;` delimiter, a missing webhook or usernames field, or a name
already registered in the global tags — is answered with an explanatory
error message and leaves the reader store unchanged. -/
theorem c9_add_post_rejects (form : AddForm) (st : ReaderState)
    (h : nameHasSemicolon form.name = true ∨ form.url = none ∨ form.usernames = none
        ∨ duplicateName form.name st = true) :
    ∃ msg, add_post form st = Except.ok (msg, st)
      ∧ isPrefixOfB (("Error").data) msg.data = true := by
  by_cases hsemi : nameHasSemicolon form.name = true
  · refine ⟨"Error, name cannot contain a semicolon.\n\nPlease go back and try again.\nName: \x27" ++
        fmtOptStr form.name ++ "\x27\nWebhook: \x27" ++ fmtOptStr form.url ++
        "\x27\nUsernames: \x27" ++ fmtOptStr form.usernames ++ "\x27", ?_, ?_⟩
    · simp [add_post, hsemi]
    · simp only [string_data_append, List.append_assoc]
      exact isPrefixOfB_append _ (by decide)
  · cases hurl : form.url with
    | none =>
      refine ⟨"Error: webhook or usernames was None. Please go back and try again.\n\nWebhook: \x27" ++
          fmtOptStr none ++ "\x27\nUsernames: \x27" ++ fmtOptStr form.usernames ++ "\x27", ?_, ?_⟩
      · simp [add_post, hsemi, hurl]
      · simp only [string_data_append, List.append_assoc]
        exact isPrefixOfB_append _ (by decide)
    | some w =>
      cases husers : form.usernames with
      | none =>
        refine ⟨"Error: webhook or usernames was None. Please go back and try again.\n\nWebhook: \x27" ++
            fmtOptStr (some w) ++ "\x27\nUsernames: \x27" ++ fmtOptStr none ++ "\x27", ?_, ?_⟩
        · simp [add_post, hsemi, hurl, husers]
        · simp only [string_data_append, List.append_assoc]
          exact isPrefixOfB_append _ (by decide)
      | some us =>
        have hdup : duplicateName form.name st = true := by
          rcases h with h | h | h | h
          · exact absurd h hsemi
          · rw [hurl] at h; exact absurd h (by simp)
          · rw [husers] at h; exact absurd h (by simp)
          · exact h
        refine ⟨"Error, name already exists.\n\nPlease go back and try again.\nName: \x27" ++
            fmtOptStr form.name ++ "\x27\nWebhook: \x27" ++ fmtOptStr (some w) ++
            "\x27\nUsernames: \x27" ++ fmtOptStr (some us) ++ "\x27", ?_, ?_⟩
        · simp [add_post, hsemi, hurl, husers, hdup]
        · simp only [string_data_append, List.append_assoc]
          exact isPrefixOfB_append _ (by decide)

/-- Witness for C9: a name carrying the reserved delimiter, and separately a
duplicate of an already-registered name, are both rejected against the
populated store, which is returned unchanged. -/
theorem c9_add_post_rejects_witness :
    (∃ msg, add_post { okForm with name := some ("The;Lovinator") } takenState
        = Except.ok (msg, takenState)
      ∧ isPrefixOfB (("Error").data) msg.data = true)
      ∧ (∃ msg, add_post okForm takenState = Except.ok (msg, takenState)
        ∧ isPrefixOfB (("Error").data) msg.data = true) :=
  ⟨c9_add_post_rejects { okForm with name := some ("The;Lovinator") } takenState
      (Or.inl (by decide)),
   c9_add_post_rejects okForm takenState (Or.inr (Or.inr (Or.inr (by decide))))⟩
